import Mathlib

/-!
Shallow embedding of the learn_loop session engine
(src/api/routes/session.py, src/api/agents/evaluator.py,
src/api/agents/explainer.py) and proofs about it.

Strings are modelled as `List Char`; Python float arithmetic on the small
integer scores handled by this code is modelled exactly with `ℚ`; Python
`int(x)` truncation is modelled by `pyTrunc`, and the specification's
`round(x)` by `specRound`.
-/

namespace LearnLoop

/-- Shorthand: character list of a string literal. -/
def lit (s : String) : List Char := s.data

/-- Python `str.strip()` on ASCII text: drop whitespace at both ends. -/
def strip (l : List Char) : List Char :=
  ((l.dropWhile Char.isWhitespace).reverse.dropWhile Char.isWhitespace).reverse

/-- Python `str.lower()` on ASCII text. -/
def lowerL (l : List Char) : List Char := l.map Char.toLower

/-- Boolean list-prefix test. -/
def startsWith : List Char → List Char → Bool
  | [], _ => true
  | _ :: _, [] => false
  | c :: cs, d :: ds => c == d && startsWith cs ds

/-- Python `needle in hay` substring test (empty needle is always found). -/
def containsSub (needle : List Char) : List Char → Bool
  | [] => startsWith needle []
  | d :: ds => startsWith needle (d :: ds) || containsSub needle ds

/-- Python `" ".join(parts)`. -/
def joinSpace (parts : List (List Char)) : List Char :=
  List.intercalate [' '] parts

/-- Python `int(q)` for a real value: truncation toward zero. -/
def pyTrunc (q : ℚ) : ℤ := if 0 ≤ q then ⌊q⌋ else ⌈q⌉

/-- Conventional rounding to the nearest integer (halves up), the reading of
    `round` used by the specification's formulas. -/
def specRound (q : ℚ) : ℤ := ⌊q + 1/2⌋

/-- On nonnegative values Python `int` truncation is the floor. -/
theorem pyTrunc_eq_floor {q : ℚ} (h : 0 ≤ q) : pyTrunc q = ⌊q⌋ := by
  rw [pyTrunc, if_pos h]

/-- `max(0, min(100, z))` as used when clamping integer scores. -/
def clampScore (z : ℤ) : ℤ := max 0 (min 100 z)

/-- `max(0.0, min(100.0, q))` as used when clamping float scores. -/
def clampScoreQ (q : ℚ) : ℚ := max 0 (min 100 q)

/-! ## Data model -/

/-- Interaction role (`interactions.role`). -/
inductive Role
  | user
  | assistant
deriving DecidableEq, Repr

/-- The four-state understanding taxonomy (src/api/models/schemas.py:11-15). -/
inductive UState
  | understood
  | partialState
  | confused
  | procedural
deriving DecidableEq, Repr

/-- A persisted Interaction row (src/api/services/supabase_service.py:534-545). -/
structure Interaction where
  role : Role
  content : List Char
  understanding_state : Option UState
deriving DecidableEq, Repr

/-- Conversation phases derived each turn (src/api/routes/session.py:244-261). -/
inductive ConversationPhase
  | greeting
  | story_explanation
  | story_quiz
  | academic_quiz
  | ongoing
deriving DecidableEq, Repr

/-! ## Conversation phase machine (src/api/routes/session.py:244-261) -/

/-- `ready_keywords` (src/api/routes/session.py:251). -/
def readyKeywords : List (List Char) :=
  [lit "ready", lit "yes", lit "ok", lit "okay", lit "sure", lit "let\x27s go", lit "start"]

/-- Phase recomputation from the number of assistant messages already recorded
    and the child's message (src/api/routes/session.py:244-261).  The keyword
    test is a substring test on the lower-cased message, as in the code. -/
def derivePhase (assistantCount : ℕ) (childMessage : List Char) : ConversationPhase :=
  if assistantCount = 1 then
    if readyKeywords.any (fun k => containsSub k (lowerL childMessage)) then
      ConversationPhase.story_explanation
    else
      ConversationPhase.greeting
  else if assistantCount = 2 then ConversationPhase.story_quiz
  else if assistantCount = 3 then ConversationPhase.academic_quiz
  else ConversationPhase.ongoing

/-! ## The interact operation (src/api/routes/session.py:164-456)

The LLM-produced reply text is abstracted as the `agentResponse` argument.
Real-time understanding evaluation was removed from `interact`
(src/api/routes/session.py:263-264): both rows are persisted with
`understanding_state = None` (lines 419-421) and the response always carries
the constant `PROCEDURAL` (line 441).  In the `story_quiz` branch the route
calls `explainer_agent.get_academic_quiz` with a `grounding_context` keyword
the method does not accept (session.py:342-349 vs explainer.py:264), so that
branch raises `TypeError` before anything is persisted and the request ends
with HTTP 500; this is modelled as `Except.error`. -/

/-- What a successful `interact` call persists and returns. -/
structure InteractOutput where
  agent_response : List Char
  understanding_state : UState
  conversation_phase : ConversationPhase
  stored : List Interaction
deriving DecidableEq, Repr

/-- One `interact` turn: `history` is the list of already persisted
    interactions, `childMessage` the child's text, `agentResponse` the text the
    explainer agent would produce for the selected branch. -/
def interactStep (history : List Interaction) (childMessage : List Char)
    (agentResponse : List Char) : Except Unit InteractOutput :=
  let assistantCount := (history.filter (fun i => i.role == Role.assistant)).length
  let derived := derivePhase assistantCount childMessage
  match derived with
  | ConversationPhase.story_quiz => Except.error ()
  | ConversationPhase.story_explanation =>
      Except.ok ⟨agentResponse, UState.procedural, ConversationPhase.story_quiz,
        [⟨Role.user, childMessage, none⟩, ⟨Role.assistant, agentResponse, none⟩]⟩
  | p =>
      Except.ok ⟨agentResponse, UState.procedural, p,
        [⟨Role.user, childMessage, none⟩, ⟨Role.assistant, agentResponse, none⟩]⟩

/-! ## End-of-session answer grading (src/api/agents/evaluator.py:137-323)

`evaluate_answers` asks the LLM for question/answer pairs and then applies
deterministic filters.  The structured output the model returns is abstracted
as a list of `RawPair`s; the numeric grades the prompt demands are integers
0-100, and they are modelled as integers (the code pipes them through
`float`/`round`, which is the identity on integers). -/

/-- One question/answer pair as returned by the grading model. -/
structure RawPair where
  question : List Char
  child_answer : List Char
  answer_relevance : ℤ
  answer_correctness : ℤ
  notes : List Char
deriving DecidableEq, Repr

/-- A surviving QuestionEvidence entry (evaluator.py:295-304). -/
structure QuestionEvidence where
  id : ℕ
  question : List Char
  child_answer : List Char
  answer_relevance : ℤ
  answer_correctness : ℤ
  notes : List Char
deriving DecidableEq, Repr

/-- `_normalize_for_substring` (evaluator.py:235-236): lower-case, keep
    alphanumerics and whitespace, strip. -/
def normalizeSub (s : List Char) : List Char :=
  strip ((lowerL s).filter fun c => c.isAlphanum || c.isWhitespace)

/-- `_normalize_for_ack_check` (evaluator.py:245-247). -/
def normalizeAck (s : List Char) : List Char :=
  strip ((strip (lowerL s)).filter fun c => c.isAlphanum || c.isWhitespace)

/-- Normalized concatenation of all user messages (evaluator.py:237-238). -/
def userMessagesNormalized (interactions : List Interaction) : List Char :=
  normalizeSub (joinSpace
    ((interactions.filter (fun i => i.role == Role.user)).map (fun i => strip i.content)))

/-- `setup_question_indicators` (evaluator.py:241). -/
def setupQuestionIndicators : List (List Char) :=
  [lit "ready", lit "ready to", lit "start", lit "begin", lit "would you like",
   lit "shall we", lit "let\x27s begin"]

/-- `acknowledgment_answers` (evaluator.py:243). -/
def acknowledgmentAnswers : List (List Char) :=
  [lit "ready", lit "yes", lit "ok", lit "okay", lit "yeah", lit "yep", lit "sure",
   lit "let\x27s go", lit "yea", lit "nod", lit "yup"]

/-- `skip_indicators` (evaluator.py:275-276). -/
def skipIndicators : List (List Char) :=
  [lit "i don\x27t know", lit "i don\x27t know.", lit "don\x27t know", lit "skip",
   lit "pass", lit "no answer", lit "n/a", lit "na", lit "none", lit "nothing", lit "idk"]

/-- The deterministic post-filter applied to one raw pair
    (evaluator.py:250-304); `idx` is its 1-based position in the raw list. -/
def processPair (interactions : List Interaction) (idx : ℕ) (p : RawPair) :
    Option QuestionEvidence :=
  let questionText := strip p.question
  let answerText := strip p.child_answer
  if questionText = [] ∨ answerText = [] then none
  else if setupQuestionIndicators.any
      (fun ind => containsSub ind (lowerL questionText)) then none
  else if normalizeAck answerText ∈ acknowledgmentAnswers then none
  else if skipIndicators.any
      (fun ind => containsSub ind (strip (lowerL answerText))) then none
  else if normalizeSub answerText = [] ∨
      containsSub (normalizeSub answerText) (userMessagesNormalized interactions) = false
    then none
  else some ⟨idx, questionText, answerText, clampScore p.answer_relevance,
    clampScore p.answer_correctness, strip p.notes⟩

/-- The filter loop over all raw pairs (`for idx, q in enumerate(questions, start=1)`),
    evaluator.py:249-304. -/
def cleanPairs (interactions : List Interaction) (idx : ℕ) : List RawPair → List QuestionEvidence
  | [] => []
  | p :: ps =>
      match processPair interactions idx p with
      | some e => e :: cleanPairs interactions (idx + 1) ps
      | none => cleanPairs interactions (idx + 1) ps

/-- Result shape of `evaluate_answers` (evaluator.py:316-320). -/
structure AnswerEvaluation where
  questions : List QuestionEvidence
  topic_discussed : Bool
deriving DecidableEq, Repr

/-- `evaluate_answers` after the model call: deterministic filtering, cap at 12
    entries, and the `topic_discussed` rule (evaluator.py:226-320). -/
def evaluateAnswers (interactions : List Interaction) (raw : List RawPair) :
    AnswerEvaluation :=
  let cleaned := (cleanPairs interactions 1 raw).take 12
  ⟨cleaned, cleaned.any (fun q => 50 ≤ q.answer_relevance)⟩

/-! ## Quiz sub-state-machine (src/api/routes/session.py:748-945,
src/api/agents/explainer.py:374-470) -/

/-- In-memory quiz state for one session (session.py:787-794). -/
structure QuizState where
  questions : List (List Char)
  current_index : ℕ
  answers : List (List Char)
  scores : List ℕ
deriving DecidableEq, Repr

/-- Result of `evaluate_quiz_answer` (explainer.py:427-470). -/
structure QuizEvaluation where
  correct : Bool
  feedback : List Char
  score : ℕ
deriving DecidableEq, Repr

/-- The fields of a well-formed JSON object returned by the grading model
    (each may be absent). -/
structure QuizEvalData where
  correct : Option Bool
  feedback : Option (List Char)
  score : Option ℕ
deriving DecidableEq, Repr

/-- Outcome of the single grading model call inside `evaluate_quiz_answer`:
    the call can fail in transport, return malformed JSON, or return a parsed
    object. -/
inductive GradingOutcome
  | transportError
  | malformedJson
  | parsed (d : QuizEvalData)
deriving DecidableEq, Repr

/-- `evaluate_quiz_answer` (explainer.py:451-470): defaults for missing keys on
    success, and the lenient fallback `correct=True, score=75` with a fixed
    feedback string when the call or the JSON parse fails. -/
def evaluateQuizAnswer : GradingOutcome → QuizEvaluation
  | GradingOutcome.transportError =>
      ⟨true, lit "Good job! Keep practicing.", 75⟩
  | GradingOutcome.malformedJson =>
      ⟨true, lit "Good job! Keep practicing.", 75⟩
  | GradingOutcome.parsed d =>
      ⟨d.correct.getD false, d.feedback.getD (lit "Good try! Keep practicing."), d.score.getD 50⟩

/-- Client errors of `submit_quiz_answer` (session.py:825-833). -/
inductive SubmitError
  | noActiveQuiz
  | alreadyCompleted
deriving DecidableEq, Repr

/-- What `submit_quiz_answer` returns together with the updated registry entry
    for the session. -/
structure SubmitResult where
  registry : Option QuizState
  quiz_completed : Bool
  correct : Bool
  feedback : List Char
  score : ℕ
  percentage : Option ℤ
deriving DecidableEq, Repr

/-- `submit_quiz_answer` (session.py:820-934) acting on the quiz registry entry
    of one session (`none` = no active quiz).  `percentage` is
    `int((total_score / max_score) * 100)` with `max_score` the number of
    questions times 100 (session.py:869-871); it is only computed at
    completion, where the registry entry is deleted (session.py:886). -/
def submitQuizAnswer (reg : Option QuizState) (answer : List Char)
    (evaluation : QuizEvaluation) : Except SubmitError SubmitResult :=
  match reg with
  | none => Except.error SubmitError.noActiveQuiz
  | some qs =>
      if qs.questions.length ≤ qs.current_index then
        Except.error SubmitError.alreadyCompleted
      else
        let newAnswers := qs.answers ++ [answer]
        let newScores := qs.scores ++ [evaluation.score]
        let nextIndex := qs.current_index + 1
        if qs.questions.length ≤ nextIndex then
          let totalScore := newScores.sum
          let maxScore := qs.questions.length * 100
          let percentage :=
            if 0 < maxScore then pyTrunc ((totalScore : ℚ) / (maxScore : ℚ) * 100) else 0
          Except.ok ⟨none, true, evaluation.correct, evaluation.feedback,
            evaluation.score, some percentage⟩
        else
          Except.ok ⟨some ⟨qs.questions, nextIndex, newAnswers, newScores⟩, false,
            evaluation.correct, evaluation.feedback, evaluation.score, none⟩

/-- Parameter names accepted by `ExplainerAgent.generate_quiz_questions`
    (src/api/agents/explainer.py:374); the method has no `**kwargs`. -/
def generateQuizQuestionsParams : List (List Char) :=
  [lit "concept", lit "age_level", lit "child_name", lit "num_questions",
   lit "learning_profile", lit "language"]

/-- Keyword arguments passed to `generate_quiz_questions` by the quiz start
    route (src/api/routes/session.py:774-782). -/
def startQuizCallKwargs : List (List Char) :=
  [lit "concept", lit "age_level", lit "child_name", lit "num_questions",
   lit "grounding_context", lit "learning_profile", lit "language"]

/-- Python keyword binding: a call without `**kwargs` binds only if every
    keyword argument names a declared parameter; otherwise it raises
    `TypeError`. -/
def kwargsBind (params kwargs : List (List Char)) : Bool :=
  kwargs.all (fun k => params.contains k)

/-- Errors of the quiz start route (session.py:748-818): FastAPI rejects
    `num_questions` outside 3..10; any exception inside the handler (such as
    the `TypeError` from a keyword the callee does not accept) is caught and
    surfaced as HTTP 500. -/
inductive StartQuizError
  | validationError
  | internalError
deriving DecidableEq, Repr

/-- `start_quiz` (session.py:748-818): after validation it invokes
    `generate_quiz_questions` with `startQuizCallKwargs`; `questions` abstracts
    the list that call would produce if it bound.  On success the new QuizState
    has `current_index = 0` and empty answers and scores (session.py:787-794). -/
def startQuiz (numQuestions : ℕ) (questions : List (List Char)) :
    Except StartQuizError QuizState :=
  if numQuestions < 3 ∨ 10 < numQuestions then Except.error StartQuizError.validationError
  else if kwargsBind generateQuizQuestionsParams startQuizCallKwargs then
    if questions = [] then Except.error StartQuizError.internalError
    else Except.ok ⟨questions, 0, [], []⟩
  else Except.error StartQuizError.internalError

/-! ## End of session (src/api/routes/session.py:500-746) -/

/-- Deterministic end-of-session mastery computation (session.py:629-701).
    `questionsInfo` is the evidence list from `evaluate_answers`,
    `interactions` the persisted rows (used by the fallback heuristic), and
    `reg` the in-memory quiz registry entry for the session at end time. -/
def masteryPercent (questionsInfo : List QuestionEvidence)
    (interactions : List Interaction) (reg : Option QuizState) : ℤ :=
  let corrScores := questionsInfo.map (fun q => clampScoreQ (q.answer_correctness : ℚ))
  let relScores := questionsInfo.map (fun q => clampScoreQ (q.answer_relevance : ℚ))
  let avgCorr : Option ℚ :=
    if corrScores ≠ [] then some (corrScores.sum / corrScores.length) else none
  let avgRel : Option ℚ :=
    if relScores ≠ [] then some (relScores.sum / relScores.length) else none
  let quizPercentage : Option ℚ :=
    match reg with
    | some qs =>
        if qs.scores ≠ [] then
          let maxQuizScore := qs.scores.length * 100
          some (if 0 < maxQuizScore then
            ((qs.scores.sum : ℚ) / (maxQuizScore : ℚ)) * 100 else 0)
        else none
    | none => none
  let mastery : ℤ :=
    match avgCorr with
    | some ac =>
        let base : ℚ :=
          match avgRel with
          | some ar => if ar < 30 then 35 else ac
          | none => ac
        match quizPercentage with
        | some p => pyTrunc (base * (2/5) + p * (3/5))
        | none => pyTrunc base
    | none =>
        let states := (interactions.filterMap (fun i => i.understanding_state)).filter
          (fun s => s ≠ UState.procedural)
        let total := states.length
        let understood := states.count UState.understood
        let partialCount := states.count UState.partialState
        let confusedCount := states.count UState.confused
        let baseMastery : ℚ :=
          if 0 < total then
            ((understood * 1 + partialCount * (3/5) + confusedCount * (1/5)) / total) * 100
          else 0
        match quizPercentage with
        | some p => pyTrunc (baseMastery * (2/5) + p * (3/5))
        | none => pyTrunc baseMastery
  max 0 (min 100 mastery)

/-- Session status (sessions.status). -/
inductive SessionStatus
  | active
  | completed
deriving DecidableEq, Repr

/-- The part of a Session record the end route reads and writes. -/
structure SessionRec (α : Type) where
  status : SessionStatus
  evaluation_report : α
deriving DecidableEq, Repr

/-- `end_session` (session.py:500-741).  If the session is already completed
    the stored report is returned unchanged and nothing is recomputed or
    persisted (session.py:515-520); otherwise the report pipeline `compute`
    runs, the result is persisted with `status = completed` and returned. -/
def endSessionRoute {α : Type} (s : SessionRec α) (compute : Unit → α) :
    SessionRec α × α :=
  if s.status = SessionStatus.completed then (s, s.evaluation_report)
  else
    let report := compute ()
    (⟨SessionStatus.completed, report⟩, report)

/-! ## Theorems -/

/-- C4: for every interact call the conversation phase is recomputed
    deterministically from the count of assistant messages already recorded:
    with exactly 1 assistant message the phase is `greeting` unless the child's
    message matches a readiness keyword (then `story_explanation`); with 2 it
    is `story_quiz`; with 3 it is `academic_quiz`; with 4 or more it is
    `ongoing`.  In particular with assistant count 1 the message "yes" derives
    `story_explanation` and "why?" derives `greeting`. -/
theorem phase_recomputation :
    (∀ msg : List Char, (∃ k ∈ readyKeywords, containsSub k (lowerL msg) = true) →
      derivePhase 1 msg = ConversationPhase.story_explanation) ∧
    (∀ msg : List Char, (∀ k ∈ readyKeywords, containsSub k (lowerL msg) = false) →
      derivePhase 1 msg = ConversationPhase.greeting) ∧
    (∀ msg : List Char, derivePhase 2 msg = ConversationPhase.story_quiz) ∧
    (∀ msg : List Char, derivePhase 3 msg = ConversationPhase.academic_quiz) ∧
    (∀ (n : ℕ) (msg : List Char), 4 ≤ n → derivePhase n msg = ConversationPhase.ongoing) ∧
    derivePhase 1 (lit "yes") = ConversationPhase.story_explanation ∧
    derivePhase 1 (lit "why?") = ConversationPhase.greeting := by
  refine ⟨?_, ?_, ?_, ?_, ?_, by decide, by decide⟩
  · intro msg hk
    have : readyKeywords.any (fun k => containsSub k (lowerL msg)) = true := by
      rcases hk with ⟨k, hmem, hsub⟩
      exact List.any_eq_true.mpr ⟨k, hmem, hsub⟩
    simp [derivePhase, this]
  · intro msg hk
    have : readyKeywords.any (fun k => containsSub k (lowerL msg)) = false := by
      rw [List.any_eq_false]
      intro k hmem
      simp [hk k hmem]
    simp [derivePhase, this]
  · intro msg; rfl
  · intro msg; rfl
  · intro n msg hn
    have h1 : n ≠ 1 := by omega
    have h2 : n ≠ 2 := by omega
    have h3 : n ≠ 3 := by omega
    simp [derivePhase, h1, h2, h3]

/-- Witness for `phase_recomputation` at concrete inputs. -/
theorem phase_recomputation_witness :
    derivePhase 1 (lit "sure thing") = ConversationPhase.story_explanation ∧
    derivePhase 1 (lit "hmm") = ConversationPhase.greeting ∧
    derivePhase 5 (lit "more") = ConversationPhase.ongoing :=
  ⟨phase_recomputation.1 (lit "sure thing") ⟨lit "sure", by decide, by decide⟩,
   phase_recomputation.2.1 (lit "hmm") (by decide),
   phase_recomputation.2.2.2.2.1 5 (lit "more") (by norm_num)⟩

/-- C3 (code bug): `start_quiz` passes the keyword argument
    `grounding_context` to `ExplainerAgent.generate_quiz_questions`, which does
    not declare such a parameter, so the call raises `TypeError` and every quiz
    start request with a valid question count fails with the internal error;
    no QuizState is ever created. -/
theorem start_quiz_typeerror :
    ∀ (n : ℕ) (questions : List (List Char)), 3 ≤ n → n ≤ 10 →
      kwargsBind generateQuizQuestionsParams startQuizCallKwargs = false ∧
      startQuiz n questions = Except.error StartQuizError.internalError := by
  intro n questions h3 h10
  refine ⟨by decide, ?_⟩
  have hrange : ¬(n < 3 ∨ 10 < n) := by omega
  simp only [startQuiz, if_neg hrange]
  have hbind : kwargsBind generateQuizQuestionsParams startQuizCallKwargs = false := by decide
  simp [hbind]

/-- Witness for `start_quiz_typeerror` with the default count of 5. -/
theorem start_quiz_typeerror_witness :
    kwargsBind generateQuizQuestionsParams startQuizCallKwargs = false ∧
    startQuiz 5 [lit "Q1", lit "Q2", lit "Q3", lit "Q4", lit "Q5"]
      = Except.error StartQuizError.internalError :=
  start_quiz_typeerror 5 [lit "Q1", lit "Q2", lit "Q3", lit "Q4", lit "Q5"]
    (by norm_num) (by norm_num)

/-- C9: ending a session is idempotent: ending an active session persists the
    computed report with status completed, and a second end call returns the
    stored report unchanged without recomputing (its result does not depend on
    the second pipeline) or re-persisting (the record is unchanged). -/
theorem end_session_idempotent :
    ∀ {α : Type} (s : SessionRec α) (c1 c2 : Unit → α),
      s.status = SessionStatus.active →
      (endSessionRoute s c1).2 = c1 () ∧
      (endSessionRoute s c1).1.status = SessionStatus.completed ∧
      endSessionRoute (endSessionRoute s c1).1 c2 = endSessionRoute s c1 := by
  intro α s c1 c2 hactive
  have hne : s.status ≠ SessionStatus.completed := by
    rw [hactive]; intro h; cases h
  simp [endSessionRoute, hne]

/-- Witness for `end_session_idempotent` on a concrete session record. -/
theorem end_session_idempotent_witness :
    (endSessionRoute (⟨SessionStatus.active, 0⟩ : SessionRec ℕ) (fun _ => 7)).2 = 7 ∧
    (endSessionRoute (⟨SessionStatus.active, 0⟩ : SessionRec ℕ) (fun _ => 7)).1.status
      = SessionStatus.completed ∧
    endSessionRoute (endSessionRoute (⟨SessionStatus.active, 0⟩ : SessionRec ℕ)
        (fun _ => 7)).1 (fun _ => 99)
      = endSessionRoute (⟨SessionStatus.active, 0⟩ : SessionRec ℕ) (fun _ => 7) :=
  end_session_idempotent ⟨SessionStatus.active, 0⟩ (fun _ => 7) (fun _ => 99) rfl

/-- C2 counterexample: a substantive academic utterance on an active session
    (one assistant message recorded, no readiness keyword) is persisted with
    `understanding_state = none` on both rows and the response carries the
    constant `procedural`: no understanding classification is produced or
    persisted for the turn. -/
theorem no_perturn_classification_cex :
    interactStep [⟨Role.assistant, lit "Hi! We will learn about fractions today.", none⟩]
      (lit "a fraction is a part of a whole") (lit "Great thinking!")
    = Except.ok ⟨lit "Great thinking!", UState.procedural, ConversationPhase.greeting,
        [⟨Role.user, lit "a fraction is a part of a whole", none⟩,
         ⟨Role.assistant, lit "Great thinking!", none⟩]⟩ := rfl

/-- C2 amended: interact performs no per-turn understanding evaluation: every
    successful interact call persists its user and assistant rows with
    `understanding_state` null and returns the constant classification
    `procedural` regardless of the child's utterance. -/
theorem interact_persists_null_state :
    ∀ (history : List Interaction) (msg resp : List Char) (out : InteractOutput),
      interactStep history msg resp = Except.ok out →
      out.understanding_state = UState.procedural ∧
      ∀ row ∈ out.stored, row.understanding_state = none := by
  intro history msg resp out h
  simp only [interactStep] at h
  split at h
  · cases h
  · cases h
    refine ⟨rfl, ?_⟩
    intro row hrow
    rcases List.mem_cons.mp hrow with rfl | hrow
    · rfl
    rcases List.mem_cons.mp hrow with rfl | hrow
    · rfl
    · cases hrow
  · cases h
    refine ⟨rfl, ?_⟩
    intro row hrow
    rcases List.mem_cons.mp hrow with rfl | hrow
    · rfl
    rcases List.mem_cons.mp hrow with rfl | hrow
    · rfl
    · cases hrow

/-- Witness for `interact_persists_null_state` on a concrete turn. -/
theorem interact_persists_null_state_witness :
    (⟨lit "Hello!", UState.procedural, ConversationPhase.ongoing,
      [⟨Role.user, lit "hi", none⟩, ⟨Role.assistant, lit "Hello!", none⟩]⟩ :
        InteractOutput).understanding_state = UState.procedural ∧
    ∀ row ∈ (⟨lit "Hello!", UState.procedural, ConversationPhase.ongoing,
      [⟨Role.user, lit "hi", none⟩, ⟨Role.assistant, lit "Hello!", none⟩]⟩ :
        InteractOutput).stored, row.understanding_state = none :=
  interact_persists_null_state [] (lit "hi") (lit "Hello!")
    ⟨lit "Hello!", UState.procedural, ConversationPhase.ongoing,
      [⟨Role.user, lit "hi", none⟩, ⟨Role.assistant, lit "Hello!", none⟩]⟩ rfl

/-- Helper: the truncated percentage formula is natural division by the number
    of questions. -/
theorem pyTrunc_ratio_eq_natDiv (s n : ℕ) (hn : n ≠ 0) :
    pyTrunc ((s : ℚ) / ((n * 100 : ℕ) : ℚ) * 100) = ((s / n : ℕ) : ℤ) := by
  have hn' : (n : ℚ) ≠ 0 := Nat.cast_ne_zero.mpr hn
  have hq : ((s : ℚ) / ((n * 100 : ℕ) : ℚ) * 100) = (s : ℚ) / (n : ℚ) := by
    push_cast
    field_simp
    ring
  rw [hq, pyTrunc_eq_floor (by positivity), Rat.floor_natCast_div_natCast]
  exact (Int.natCast_div s n).symm

/-- Helper: full characterization of an accepted answer submission. -/
theorem submitQuizAnswer_spec (qs : QuizState) (ans : List Char) (ev : QuizEvaluation)
    (h : qs.current_index < qs.questions.length) :
    submitQuizAnswer (some qs) ans ev =
      if qs.questions.length ≤ qs.current_index + 1 then
        Except.ok ⟨none, true, ev.correct, ev.feedback, ev.score,
          some ((((qs.scores.sum + ev.score) / qs.questions.length : ℕ)) : ℤ)⟩
      else
        Except.ok ⟨some ⟨qs.questions, qs.current_index + 1, qs.answers ++ [ans],
          qs.scores ++ [ev.score]⟩, false, ev.correct, ev.feedback, ev.score, none⟩ := by
  have hnot : ¬ qs.questions.length ≤ qs.current_index := by omega
  by_cases hlast : qs.questions.length ≤ qs.current_index + 1
  · have hpos : 0 < qs.questions.length * 100 := by
      have : qs.questions.length ≠ 0 := by omega
      omega
    simp only [submitQuizAnswer, if_neg hnot, if_pos hlast, if_pos hpos]
    rw [List.sum_append, List.sum_cons, List.sum_nil, add_zero,
      pyTrunc_ratio_eq_natDiv (qs.scores.sum + ev.score) qs.questions.length (by omega)]
  · simp only [submitQuizAnswer, if_neg hnot, if_neg hlast]

/-- C7: for every quiz, an accepted answer submission increases
    `current_index` by exactly 1, the QuizState is removed from the registry
    exactly when the new index equals the number of questions (earlier
    submissions leave it present), and submissions are rejected when no active
    quiz exists. -/
theorem quiz_index_invariant :
    (∀ (ans : List Char) (ev : QuizEvaluation),
      submitQuizAnswer none ans ev = Except.error SubmitError.noActiveQuiz) ∧
    (∀ (qs : QuizState) (ans : List Char) (ev : QuizEvaluation),
      qs.questions.length ≤ qs.current_index →
      submitQuizAnswer (some qs) ans ev = Except.error SubmitError.alreadyCompleted) ∧
    (∀ (qs : QuizState) (ans : List Char) (ev : QuizEvaluation),
      qs.current_index < qs.questions.length →
      ∃ res, submitQuizAnswer (some qs) ans ev = Except.ok res ∧
        ((qs.current_index + 1 = qs.questions.length ∧ res.registry = none) ∨
         (qs.current_index + 1 < qs.questions.length ∧
          ∃ qs2, res.registry = some qs2 ∧ qs2.current_index = qs.current_index + 1 ∧
            qs2.questions = qs.questions))) := by
  refine ⟨fun ans ev => rfl, ?_, ?_⟩
  · intro qs ans ev h
    simp only [submitQuizAnswer, if_pos h]
  · intro qs ans ev h
    rw [submitQuizAnswer_spec qs ans ev h]
    by_cases hlast : qs.questions.length ≤ qs.current_index + 1
    · rw [if_pos hlast]
      exact ⟨_, rfl, Or.inl ⟨by omega, rfl⟩⟩
    · rw [if_neg hlast]
      exact ⟨_, rfl, Or.inr ⟨by omega, _, rfl, rfl, rfl⟩⟩

/-- Witness for `quiz_index_invariant` on concrete quiz states. -/
theorem quiz_index_invariant_witness :
    submitQuizAnswer (some ⟨[lit "a"], 1, [lit "x"], [50]⟩) (lit "y") ⟨true, lit "f", 10⟩
      = Except.error SubmitError.alreadyCompleted ∧
    (∃ res, submitQuizAnswer (some ⟨[lit "a", lit "b"], 0, [], []⟩) (lit "y")
        ⟨true, lit "f", 10⟩ = Except.ok res ∧
      ((0 + 1 = 2 ∧ res.registry = none) ∨
       (0 + 1 < 2 ∧ ∃ qs2, res.registry = some qs2 ∧ qs2.current_index = 0 + 1 ∧
          qs2.questions = [lit "a", lit "b"]))) :=
  ⟨quiz_index_invariant.2.1 ⟨[lit "a"], 1, [lit "x"], [50]⟩ (lit "y") ⟨true, lit "f", 10⟩
      (by norm_num),
   quiz_index_invariant.2.2 ⟨[lit "a", lit "b"], 0, [], []⟩ (lit "y") ⟨true, lit "f", 10⟩
      (by norm_num)⟩

/-- C8 counterexample: a 3-question quiz with recorded scores [50, 50] whose
    last answer scores 55 completes with percentage 51 (Python `int`
    truncation of 155/3), while the claimed formula
    `round(sum(scores) / (len(questions)*100) * 100)` gives 52. -/
theorem quiz_percentage_round_cex :
    submitQuizAnswer (some ⟨[lit "a", lit "b", lit "c"], 2, [lit "x", lit "y"], [50, 50]⟩)
      (lit "z") ⟨false, lit "f", 55⟩
    = Except.ok ⟨none, true, false, lit "f", 55, some 51⟩ ∧
    specRound ((([50, 50, 55] : List ℕ).sum : ℚ) / (((3 * 100 : ℕ)) : ℚ) * 100) = 52 := by
  constructor
  · simp only [submitQuizAnswer]
    norm_num [pyTrunc_eq_floor]
  · rw [specRound]
    norm_num [List.sum_cons, List.sum_nil]

/-- C8 amended: when the last question of a quiz is answered, the returned
    completion percentage is the Python `int` truncation of
    `sum(scores) / (len(questions)*100) * 100`, i.e. the integer quotient
    `sum(scores) / len(questions)`; the 5-question all-80 scenario still
    completes at 80. -/
theorem quiz_percentage_amended :
    ∀ (qs : QuizState) (ans : List Char) (ev : QuizEvaluation),
      qs.current_index + 1 = qs.questions.length →
      ∃ res, submitQuizAnswer (some qs) ans ev = Except.ok res ∧
        res.quiz_completed = true ∧
        res.percentage = some (((qs.scores.sum + ev.score) / qs.questions.length : ℕ) : ℤ) := by
  intro qs ans ev hlen
  rw [submitQuizAnswer_spec qs ans ev (by omega), if_pos (by omega)]
  exact ⟨_, rfl, rfl, rfl⟩

/-- Witness for `quiz_percentage_amended`: the 5-question quiz scored
    [80, 80, 80, 80, 80] completes with percentage 80. -/
theorem quiz_percentage_amended_witness :
    ∃ res, submitQuizAnswer
        (some ⟨[lit "a", lit "b", lit "c", lit "d", lit "e"], 4,
          [lit "p", lit "q", lit "r", lit "s"], [80, 80, 80, 80]⟩)
        (lit "t") ⟨true, lit "f", 80⟩ = Except.ok res ∧
      res.quiz_completed = true ∧
      res.percentage = some ((((([80, 80, 80, 80] : List ℕ).sum + 80) / 5 : ℕ)) : ℤ) :=
  quiz_percentage_amended
    ⟨[lit "a", lit "b", lit "c", lit "d", lit "e"], 4,
      [lit "p", lit "q", lit "r", lit "s"], [80, 80, 80, 80]⟩
    (lit "t") ⟨true, lit "f", 80⟩ (by norm_num)

/-- C10 (implicit): when the grading model call for a quiz answer fails
    (transport error or malformed JSON), the submission does not fail: the
    answer is recorded with the lenient fallback `correct = true, score = 75`
    and the fixed feedback string, and the 75 counts toward the completion
    percentage. -/
theorem quiz_eval_fallback :
    ∀ (g : GradingOutcome),
      (g = GradingOutcome.transportError ∨ g = GradingOutcome.malformedJson) →
      evaluateQuizAnswer g = ⟨true, lit "Good job! Keep practicing.", 75⟩ ∧
      ∀ (qs : QuizState) (ans : List Char), qs.current_index < qs.questions.length →
        ∃ res, submitQuizAnswer (some qs) ans (evaluateQuizAnswer g) = Except.ok res ∧
          res.correct = true ∧ res.score = 75 ∧
          res.feedback = lit "Good job! Keep practicing." ∧
          (qs.current_index + 1 = qs.questions.length →
            res.percentage = some (((qs.scores.sum + 75) / qs.questions.length : ℕ) : ℤ)) := by
  intro g hg
  have hev : evaluateQuizAnswer g = ⟨true, lit "Good job! Keep practicing.", 75⟩ := by
    rcases hg with rfl | rfl <;> rfl
  refine ⟨hev, ?_⟩
  intro qs ans hlt
  rw [hev, submitQuizAnswer_spec qs ans ⟨true, lit "Good job! Keep practicing.", 75⟩ hlt]
  by_cases hlast : qs.questions.length ≤ qs.current_index + 1
  · rw [if_pos hlast]
    exact ⟨_, rfl, rfl, rfl, rfl, fun _ => rfl⟩
  · rw [if_neg hlast]
    exact ⟨_, rfl, rfl, rfl, rfl, fun hc => absurd hc (by omega)⟩

/-- Witness for `quiz_eval_fallback` on a concrete mid-quiz state. -/
theorem quiz_eval_fallback_witness :
    evaluateQuizAnswer GradingOutcome.malformedJson
      = ⟨true, lit "Good job! Keep practicing.", 75⟩ ∧
    ∀ (qs : QuizState) (ans : List Char), qs.current_index < qs.questions.length →
      ∃ res, submitQuizAnswer (some qs) ans
          (evaluateQuizAnswer GradingOutcome.malformedJson) = Except.ok res ∧
        res.correct = true ∧ res.score = 75 ∧
        res.feedback = lit "Good job! Keep practicing." ∧
        (qs.current_index + 1 = qs.questions.length →
          res.percentage = some (((qs.scores.sum + 75) / qs.questions.length : ℕ) : ℤ)) :=
  quiz_eval_fallback GradingOutcome.malformedJson (Or.inr rfl)

/-- Helper: every evidence entry produced by the post-filter passed the
    hallucination substring check. -/
theorem processPair_some_infix {inters : List Interaction} {idx : ℕ} {p : RawPair}
    {e : QuestionEvidence} (h : processPair inters idx p = some e) :
    normalizeSub e.child_answer ≠ [] ∧
    containsSub (normalizeSub e.child_answer) (userMessagesNormalized inters) = true := by
  simp only [processPair] at h
  split at h
  · exact Option.noConfusion h
  split at h
  · exact Option.noConfusion h
  split at h
  · exact Option.noConfusion h
  split at h
  · exact Option.noConfusion h
  split at h
  · exact Option.noConfusion h
  next hcond =>
    simp only [not_or, Bool.not_eq_false] at hcond
    cases h
    exact hcond

/-- Helper: every entry of the filter loop output comes from `processPair`. -/
theorem mem_cleanPairs {inters : List Interaction} (idx : ℕ) (raw : List RawPair)
    (e : QuestionEvidence) (h : e ∈ cleanPairs inters idx raw) :
    ∃ i p, processPair inters i p = some e := by
  induction raw generalizing idx with
  | nil => cases h
  | cons p ps ih =>
    rcases hp : processPair inters idx p with _ | e2
    · have h2 : e ∈ cleanPairs inters (idx + 1) ps := by
        simpa only [cleanPairs, hp] using h
      exact ih (idx + 1) h2
    · have h2 : e ∈ e2 :: cleanPairs inters (idx + 1) ps := by
        simpa only [cleanPairs, hp] using h
      rcases List.mem_cons.mp h2 with rfl | h3
      · exact ⟨idx, p, hp⟩
      · exact ih (idx + 1) h3

/-- C5: every QuestionEvidence pair surviving `evaluate_answers` has a
    `child_answer` whose normalization (lower-case, alphanumerics and spaces
    only) is non-empty and a substring of the normalized concatenation of all
    user messages of the transcript; pairs failing the check are excluded
    (they never reach the output). -/
theorem evidence_answers_verbatim :
    ∀ (inters : List Interaction) (raw : List RawPair) (e : QuestionEvidence),
      e ∈ (evaluateAnswers inters raw).questions →
      normalizeSub e.child_answer ≠ [] ∧
      containsSub (normalizeSub e.child_answer) (userMessagesNormalized inters) = true := by
  intro inters raw e he
  have he2 : e ∈ (cleanPairs inters 1 raw).take 12 := he
  obtain ⟨i, p, hp⟩ := mem_cleanPairs 1 raw e (List.mem_of_mem_take he2)
  exact processPair_some_infix hp

/-- Witness for `evidence_answers_verbatim` on a concrete transcript in which
    the graded answer is verbatim from the child. -/
theorem evidence_answers_verbatim_witness :
    normalizeSub (lit "a fraction is a part of a whole") ≠ [] ∧
    containsSub (normalizeSub (lit "a fraction is a part of a whole"))
      (userMessagesNormalized
        [⟨Role.assistant, lit "What is a fraction", none⟩,
         ⟨Role.user, lit "a fraction is a part of a whole", none⟩]) = true :=
  evidence_answers_verbatim
    [⟨Role.assistant, lit "What is a fraction", none⟩,
     ⟨Role.user, lit "a fraction is a part of a whole", none⟩]
    [⟨lit "What is a fraction", lit "a fraction is a part of a whole", 80, 90, lit ""⟩]
    ⟨1, lit "What is a fraction", lit "a fraction is a part of a whole", 80, 90, lit ""⟩
    (by decide)

/-- C6 counterexample: on a transcript whose only child replies are "ready",
    "ok" and "yes", a structured output that reports the fabricated answer
    "eady" (a substring of the normalized concatenation "ready ok yes" that is
    not in the acknowledgment list) survives every filter, so
    `evaluate_answers` returns one QuestionEvidence entry and
    `topic_discussed = true`, not zero entries and `False`. -/
theorem ack_transcript_cex :
    evaluateAnswers
      [⟨Role.assistant, lit "Are you set to learn addition", none⟩,
       ⟨Role.user, lit "ready", none⟩,
       ⟨Role.assistant, lit "What is two plus two", none⟩,
       ⟨Role.user, lit "ok", none⟩,
       ⟨Role.assistant, lit "Can you count to ten", none⟩,
       ⟨Role.user, lit "yes", none⟩]
      [⟨lit "What is two plus two", lit "eady", 80, 80, lit ""⟩]
    = ⟨[⟨1, lit "What is two plus two", lit "eady", 80, 80, lit ""⟩], true⟩ := by decide

/-- Helper: a pair whose stripped answer ack-normalizes into the
    acknowledgment list is dropped by the post-filter. -/
theorem processPair_none_of_ack {inters : List Interaction} {idx : ℕ} {p : RawPair}
    (hmem : normalizeAck (strip p.child_answer) ∈ acknowledgmentAnswers) :
    processPair inters idx p = none := by
  simp only [processPair]
  split_ifs with h1 h2 <;> rfl

/-- Helper: if every raw pair is dropped, the filter loop returns nothing. -/
theorem cleanPairs_eq_nil {inters : List Interaction} (raw : List RawPair) (idx : ℕ)
    (h : ∀ p ∈ raw, ∀ i, processPair inters i p = none) :
    cleanPairs inters idx raw = [] := by
  induction raw generalizing idx with
  | nil => rfl
  | cons p ps ih =>
    simp only [cleanPairs, h p (List.mem_cons_self p ps) idx]
    exact ih (idx + 1) (fun q hq i => h q (List.mem_cons_of_mem p hq) i)

/-- C6 amended: on a transcript whose only child replies are "ready", "ok" and
    "yes", every structured output whose reported answers are taken verbatim
    from the child's messages yields zero QuestionEvidence entries and
    `topic_discussed = False`; the guarantee does not extend to fabricated
    answers that are merely substrings of the concatenated transcript. -/
theorem ack_transcript_amended :
    ∀ (inters : List Interaction) (raw : List RawPair),
      (∀ i ∈ inters, i.role = Role.user →
        i.content = lit "ready" ∨ i.content = lit "ok" ∨ i.content = lit "yes") →
      (∀ p ∈ raw, ∃ i ∈ inters, i.role = Role.user ∧ strip p.child_answer = strip i.content) →
      (evaluateAnswers inters raw).questions = [] ∧
      (evaluateAnswers inters raw).topic_discussed = false := by
  intro inters raw hu hr
  have hnone : ∀ p ∈ raw, ∀ i, processPair inters i p = none := by
    intro p hp i
    obtain ⟨row, hrow, hrole, hstrip⟩ := hr p hp
    apply processPair_none_of_ack
    rw [hstrip]
    rcases hu row hrow hrole with hc | hc | hc <;> rw [hc] <;> decide
  have hclean : cleanPairs inters 1 raw = [] := cleanPairs_eq_nil raw 1 hnone
  constructor
  · show (cleanPairs inters 1 raw).take 12 = []
    rw [hclean]
    rfl
  · show ((cleanPairs inters 1 raw).take 12).any _ = false
    rw [hclean]
    rfl

/-- Witness for `ack_transcript_amended`: the model echoes the child's "yes"
    as the answer to a concept question and no evidence survives. -/
theorem ack_transcript_amended_witness :
    (evaluateAnswers
      [⟨Role.assistant, lit "Are you set to learn addition", none⟩,
       ⟨Role.user, lit "ready", none⟩,
       ⟨Role.assistant, lit "What is two plus two", none⟩,
       ⟨Role.user, lit "ok", none⟩,
       ⟨Role.assistant, lit "Can you count to ten", none⟩,
       ⟨Role.user, lit "yes", none⟩]
      [⟨lit "What is two plus two", lit "yes", 90, 90, lit ""⟩]).questions = [] ∧
    (evaluateAnswers
      [⟨Role.assistant, lit "Are you set to learn addition", none⟩,
       ⟨Role.user, lit "ready", none⟩,
       ⟨Role.assistant, lit "What is two plus two", none⟩,
       ⟨Role.user, lit "ok", none⟩,
       ⟨Role.assistant, lit "Can you count to ten", none⟩,
       ⟨Role.user, lit "yes", none⟩]
      [⟨lit "What is two plus two", lit "yes", 90, 90, lit ""⟩]).topic_discussed = false :=
  ack_transcript_amended
    [⟨Role.assistant, lit "Are you set to learn addition", none⟩,
     ⟨Role.user, lit "ready", none⟩,
     ⟨Role.assistant, lit "What is two plus two", none⟩,
     ⟨Role.user, lit "ok", none⟩,
     ⟨Role.assistant, lit "Can you count to ten", none⟩,
     ⟨Role.user, lit "yes", none⟩]
    [⟨lit "What is two plus two", lit "yes", 90, 90, lit ""⟩]
    (by decide) (by decide)

/-- Helper: dividing by `n * 100` and multiplying by 100 is dividing by `n`. -/
theorem ratio_times_100 (s n : ℕ) (hn : n ≠ 0) :
    ((s : ℚ) / ((n * 100 : ℕ) : ℚ)) * 100 = (s : ℚ) / (n : ℚ) := by
  have hn' : (n : ℚ) ≠ 0 := Nat.cast_ne_zero.mpr hn
  push_cast
  field_simp
  ring

/-- C1 counterexample: answering the last question of a 3-question quiz whose
    scores are all 60 completes the quiz at 60% and deletes the QuizState from
    the registry; the subsequent session end therefore finds no quiz state,
    and with empty QuestionEvidence and no stored understanding states it
    returns `mastery_percent = 0`, not 36. -/
theorem completed_quiz_not_combined_cex :
    submitQuizAnswer (some ⟨[lit "q1", lit "q2", lit "q3"], 2, [lit "a1", lit "a2"], [60, 60]⟩)
      (lit "a3") ⟨true, lit "fb", 60⟩
    = Except.ok ⟨none, true, true, lit "fb", 60, some 60⟩ ∧
    masteryPercent []
      [⟨Role.assistant, lit "hello", none⟩, ⟨Role.user, lit "ready", none⟩,
       ⟨Role.assistant, lit "a story", none⟩, ⟨Role.user, lit "a3", none⟩]
      none = 0 ∧
    (0 : ℤ) ≠ 36 := by
  refine ⟨?_, ?_, by norm_num⟩
  · simp only [submitQuizAnswer]
    norm_num [pyTrunc_eq_floor]
  · simp [masteryPercent, pyTrunc]

/-- C1 amended: at session end the quiz contribution is read from the
    in-memory registry, which holds a state only while a quiz is in progress
    (completion deletes it, see the counterexample).  When evidence exists and
    the registry still holds a quiz with recorded scores, the final mastery is
    the Python `int` truncation (not rounding) of `base*0.4 + p*0.6`, where
    `base` is the mean correctness (clamped to 35 when mean relevance is below
    30) and `p` is the mean of the recorded quiz scores, clamped to [0, 100]. -/
theorem mastery_combination_amended :
    ∀ (ev : List QuestionEvidence) (inters : List Interaction) (qs : QuizState),
      ev ≠ [] →
      (∀ e ∈ ev, 0 ≤ e.answer_relevance ∧ e.answer_relevance ≤ 100 ∧
        0 ≤ e.answer_correctness ∧ e.answer_correctness ≤ 100) →
      qs.scores ≠ [] →
      masteryPercent ev inters (some qs) =
        max 0 (min 100 (pyTrunc (
          (if (ev.map (fun e => (e.answer_relevance : ℚ))).sum / ev.length < 30 then (35 : ℚ)
           else (ev.map (fun e => (e.answer_correctness : ℚ))).sum / ev.length) * (2/5)
          + ((qs.scores.sum : ℚ) / (qs.scores.length : ℚ)) * (3/5)))) := by
  intro ev inters qs hev hb hqs
  have hcorr : ev.map (fun q => clampScoreQ (q.answer_correctness : ℚ))
      = ev.map (fun q => (q.answer_correctness : ℚ)) :=
    List.map_congr_left (fun e he => by
      obtain ⟨_, _, hc0, hc1⟩ := hb e he
      unfold clampScoreQ
      rw [min_eq_right (by exact_mod_cast hc1), max_eq_right (by exact_mod_cast hc0)])
  have hrel : ev.map (fun q => clampScoreQ (q.answer_relevance : ℚ))
      = ev.map (fun q => (q.answer_relevance : ℚ)) :=
    List.map_congr_left (fun e he => by
      obtain ⟨hr0, hr1, _, _⟩ := hb e he
      unfold clampScoreQ
      rw [min_eq_right (by exact_mod_cast hr1), max_eq_right (by exact_mod_cast hr0)])
  have hne1 : ev.map (fun q : QuestionEvidence => (q.answer_correctness : ℚ)) ≠ [] := by
    simpa using hev
  have hne2 : ev.map (fun q : QuestionEvidence => (q.answer_relevance : ℚ)) ≠ [] := by
    simpa using hev
  have hpos : 0 < qs.scores.length * 100 := by
    have : qs.scores.length ≠ 0 := by simpa using hqs
    omega
  simp only [masteryPercent, hcorr, hrel, List.length_map]
  rw [if_pos hne1, if_pos hne2, if_pos hqs, if_pos hpos,
    ratio_times_100 qs.scores.sum qs.scores.length (by simpa using hqs)]

/-- Witness for `mastery_combination_amended` on concrete evidence and an
    in-progress quiz. -/
theorem mastery_combination_amended_witness :
    masteryPercent [⟨1, lit "q", lit "a", 80, 90, lit ""⟩]
      [⟨Role.user, lit "a", none⟩]
      (some ⟨[lit "x", lit "y", lit "z"], 1, [lit "w"], [70]⟩) =
      max 0 (min 100 (pyTrunc (
        (if (([⟨1, lit "q", lit "a", 80, 90, lit ""⟩] :
            List QuestionEvidence).map (fun e => (e.answer_relevance : ℚ))).sum /
            ([⟨1, lit "q", lit "a", 80, 90, lit ""⟩] : List QuestionEvidence).length < 30
         then (35 : ℚ)
         else (([⟨1, lit "q", lit "a", 80, 90, lit ""⟩] :
            List QuestionEvidence).map (fun e => (e.answer_correctness : ℚ))).sum /
            ([⟨1, lit "q", lit "a", 80, 90, lit ""⟩] : List QuestionEvidence).length) * (2/5)
        + ((([70] : List ℕ).sum : ℚ) / (([70] : List ℕ).length : ℚ)) * (3/5)))) :=
  mastery_combination_amended [⟨1, lit "q", lit "a", 80, 90, lit ""⟩]
    [⟨Role.user, lit "a", none⟩]
    ⟨[lit "x", lit "y", lit "z"], 1, [lit "w"], [70]⟩
    (by decide) (by decide) (by decide)

end LearnLoop
